import Mathlib

/-!
# Verification of the lightnode request pipeline

A shallow embedding of the `republicprotocol/lightnode` gateway: the HTTP
ingress (`http/server.go`), the response cacher (`cacher/cacher.go`) and the
dispatcher (`dispatcher.go`).  Pure parts of the Go source are translated as
executable Lean functions; the effects of a handler (sends on reply channels,
messages forwarded to the next actor, cache mutation) are returned explicitly
as data, and a Go `panic` is modelled by `Option.none`.  Byte strings
(`[]byte`, `json.RawMessage`) are modelled as `List Nat` with each element a
byte value.
-/

/-- A JSON value.  Models the dynamic JSON values handled by Go's
`encoding/json` (`jsonrpc.Request.ID` is `interface{}`, bodies are decoded
into `json.RawMessage` fragments). -/
inductive Json where
  | null : Json
  | bool (b : Bool) : Json
  | num (n : Int) : Json
  | str (s : String) : Json
  | arr (elems : List Json) : Json
  | obj (fields : List (String × Json)) : Json

/-- `jsonrpc.Request`: a JSON-RPC 2.0 request envelope
`{jsonrpc, id, method, params}`; `Params` is a `json.RawMessage`, modelled as
its byte list. -/
structure Request where
  version : String
  id : Json
  method : String
  params : List Nat

/-- `jsonrpc.Error`: `{code, message, data?}` (the `data` field is never
inspected by the pipeline and is omitted). -/
structure RpcError where
  code : Int
  message : String

/-- `jsonrpc.Response`: `{id, result?, error?}`.  The Go zero value
`jsonrpc.Response{}` has a nil `ID`, nil `Result` and nil `Error`. -/
structure Response where
  id : Json
  result : Option Json
  error : Option RpcError

/-- The Go zero value `jsonrpc.Response{}` (sent by the dispatcher when the
response loop falls through). -/
def Response.empty : Response :=
  { id := Json.null, result := none, error := none }

/-! ## Error codes (`http/server.go` and the `jsonrpc` method catalog) -/

def ErrorCodeMaxBatchSizeExceeded : Int := -32001
def ErrorCodeRateLimitExceeded : Int := -32002
def ErrorCodeForwardingError : Int := -32003
def ErrorCodeTimeout : Int := -32004
def ErrorCodeInvalidJSON : Int := -32700
def ErrorCodeInvalidRequest : Int := -32600
def ErrorCodeMethodNotFound : Int := -32601
def ErrorCodeInvalidParams : Int := -32602
def ErrorCodeInternal : Int := -32603
def ErrorCodeResultNotFound : Int := -32604

/-! ## SHA3-256

Model of `golang.org/x/crypto/sha3.Sum256`, the external hash library the
cacher calls: the Keccak-f[1600] permutation with rate 136 and the SHA-3
domain padding byte `0x06`.  64-bit lanes are modelled as `Nat` reduced
modulo `2^64`. -/

/-- Truncate to a 64-bit word. -/
def w64 (x : Nat) : Nat := x % 18446744073709551616

/-- 64-bit left rotation. -/
def rol64 (x r : Nat) : Nat := w64 ((x <<< (r % 64)) ||| (x >>> (64 - r % 64)))

/-- 64-bit bitwise complement. -/
def not64 (x : Nat) : Nat := 18446744073709551615 ^^^ x

/-- The θ step of Keccak-f: xor every lane with the parity of two columns. -/
def keccakTheta (st : List Nat) : List Nat :=
  let c := (List.range 5).map fun x =>
    st.getD x 0 ^^^ st.getD (x + 5) 0 ^^^ st.getD (x + 10) 0 ^^^
      st.getD (x + 15) 0 ^^^ st.getD (x + 20) 0
  let d := (List.range 5).map fun x =>
    c.getD ((x + 4) % 5) 0 ^^^ rol64 (c.getD ((x + 1) % 5) 0) 1
  (List.range 25).map fun i => st.getD i 0 ^^^ d.getD (i % 5) 0

/-- Source lane index and rotation amount for each destination lane of the
combined ρ and π steps of Keccak-f. -/
def rhoPiTable : List (Nat × Nat) :=
  [(0, 0), (6, 44), (12, 43), (18, 21), (24, 14),
   (3, 28), (9, 20), (10, 3), (16, 45), (22, 61),
   (1, 1), (7, 6), (13, 25), (19, 8), (20, 18),
   (4, 27), (5, 36), (11, 10), (17, 15), (23, 56),
   (2, 62), (8, 55), (14, 39), (15, 41), (21, 2)]

/-- The combined ρ (rotate) and π (permute) steps of Keccak-f. -/
def keccakRhoPi (st : List Nat) : List Nat :=
  rhoPiTable.map fun p => rol64 (st.getD p.1 0) p.2

/-- The χ step of Keccak-f. -/
def keccakChi (st : List Nat) : List Nat :=
  (List.range 25).map fun i =>
    let x := i % 5
    let y := i - x
    st.getD i 0 ^^^ (not64 (st.getD ((x + 1) % 5 + y) 0) &&& st.getD ((x + 2) % 5 + y) 0)

/-- The 24 round constants of Keccak-f[1600], written in decimal. -/
def keccakRC : List Nat :=
  [1, 32898, 9223372036854808714,
   9223372039002292224, 32907, 2147483649,
   9223372039002292353, 9223372036854808585, 138,
   136, 2147516425, 2147483658,
   2147516555, 9223372036854775947, 9223372036854808713,
   9223372036854808579, 9223372036854808578, 9223372036854775936,
   32778, 9223372039002259466, 9223372039002292353,
   9223372036854808704, 2147483649, 9223372039002292232]

/-- One round of Keccak-f[1600]: θ, ρ, π, χ and the ι round constant. -/
def keccakRound (st : List Nat) (rc : Nat) : List Nat :=
  let st := keccakChi (keccakRhoPi (keccakTheta st))
  (st.getD 0 0 ^^^ rc) :: st.drop 1

/-- The full Keccak-f[1600] permutation (24 rounds). -/
def keccakF (st : List Nat) : List Nat :=
  keccakRC.foldl keccakRound st

/-- Decode 8 little-endian bytes into a 64-bit lane. -/
def bytesToLane (bs : List Nat) : Nat :=
  bs.foldr (fun b acc => (acc <<< 8) ||| (b % 256)) 0

/-- SHA-3 multi-rate padding for rate 136 with domain byte `0x06`. -/
def sha3Pad (msg : List Nat) : List Nat :=
  let q := 136 - msg.length % 136
  if q = 1 then msg ++ [0x86]
  else msg ++ 0x06 :: List.replicate (q - 2) 0 ++ [0x80]

/-- Absorb one 136-byte block into the 25-lane state and permute. -/
def absorbBlock (st : List Nat) (block : List Nat) : List Nat :=
  keccakF <| (List.range 25).map fun i =>
    if i < 17 then st.getD i 0 ^^^ bytesToLane ((block.drop (8 * i)).take 8)
    else st.getD i 0

/-- Absorb a padded message, 136 bytes at a time. -/
def absorb (st : List Nat) (padded : List Nat) : List Nat :=
  match h : padded.length with
  | 0 => st
  | _ + 1 =>
    have : padded.length - 136 < padded.length := by omega
    absorb (absorbBlock st (padded.take 136)) (padded.drop 136)
termination_by padded.length
decreasing_by simpa using this

/-- `sha3.Sum256`: the 32-byte SHA3-256 digest of a byte list. -/
def sha3Sum256 (msg : List Nat) : List Nat :=
  let st := absorb (List.replicate 25 0) (sha3Pad msg)
  (List.range 32).map fun i => (st.getD (i / 8) 0 >>> (8 * (i % 8))) % 256

/-! ## Byte strings -/

/-- The UTF-8 bytes of a string (Go strings are byte strings; all string
literals in the pipeline are ASCII). -/
def strBytes (s : String) : List Nat :=
  s.toUTF8.toList.map UInt8.toNat

/-! ## The envelope (`http/server.go`: `RequestWithResponder`) -/

/-- The reply channel of an envelope.  Only its capacity is observable in the
embedding; the sends performed on it are returned by each handler as a list. -/
structure ResponderChannel where
  capacity : Nat

/-- `RequestWithResponder`: a request paired with its reply channel and the
target darknode hint taken from the URL query parameter `id`. -/
structure RequestWithResponder where
  request : Request
  responder : ResponderChannel
  darknodeID : String

/-- `NewRequestWithResponder`: constructs the envelope; the responder channel
is created by `make(chan jsonrpc.Response, 1)`, capacity 1. -/
def NewRequestWithResponder (req : Request) (darknodeAddr : String) : RequestWithResponder :=
  { request := req, responder := { capacity := 1 }, darknodeID := darknodeAddr }

/-! ## JSON serialization

Re-serialization of a parsed JSON value back to bytes, standing in for the
raw `json.RawMessage` bytes that Go's decoder keeps verbatim for the `params`
field. -/

/-- Escape a character for a JSON string literal. -/
def escapeChar (c : Char) : String :=
  if c = '"' ∨ c = '\\' then "\\" ++ c.toString else c.toString

mutual

/-- Serialize a JSON value to its textual form. -/
def Json.serialize : Json → String
  | .null => "null"
  | .bool b => if b then "true" else "false"
  | .num n => toString n
  | .str s => "\"" ++ String.join (s.toList.map escapeChar) ++ "\""
  | .arr elems => "[" ++ Json.serializeList elems ++ "]"
  | .obj fields => "\x7b" ++ Json.serializeFields fields ++ "\x7d"

/-- Serialize the comma-separated elements of a JSON array. -/
def Json.serializeList : List Json → String
  | [] => ""
  | [j] => j.serialize
  | j :: rest => j.serialize ++ "," ++ Json.serializeList rest

/-- Serialize the comma-separated fields of a JSON object. -/
def Json.serializeFields : List (String × Json) → String
  | [] => ""
  | [(k, v)] => "\"" ++ k ++ "\":" ++ v.serialize
  | (k, v) :: rest => "\"" ++ k ++ "\":" ++ v.serialize ++ "," ++ Json.serializeFields rest

end

/-- The bytes of a JSON value's textual form (models the raw bytes Go keeps
in a `json.RawMessage`). -/
def Json.bytes (j : Json) : List Nat := strBytes j.serialize

/-! ## Request decoding (`encoding/json` unmarshalling into `jsonrpc.Request`)

Go's decoder fills absent struct fields with zero values, fails when a
present field has the wrong JSON type, and fails when the top-level value
does not match the Go type (`jsonrpc.Request` is a struct, `[]jsonrpc.Request`
a slice). -/

/-- Look up a field of a JSON object (first occurrence). -/
def getField (fields : List (String × Json)) (key : String) : Option Json :=
  (fields.find? fun p => decide (p.1 = key)).map (·.2)

/-- Decode a JSON value as a string field: absent fields default to `""`,
non-string values are a decoding error. -/
def decodeStrField (fields : List (String × Json)) (key : String) : Option String :=
  match getField fields key with
  | none => some ""
  | some (Json.str s) => some s
  | some _ => none

/-- Unmarshal one JSON value into a `jsonrpc.Request`.  The `id` field is
`interface{}` (any JSON value, defaulting to null); the `params` field is a
`json.RawMessage` holding the raw bytes of the fragment (a nil `RawMessage`
marshals to `"null"`). -/
def decodeRequest (j : Json) : Option Request :=
  match j with
  | Json.obj fields =>
    match decodeStrField fields "jsonrpc", decodeStrField fields "method" with
    | some version, some method =>
      some { version := version,
             id := (getField fields "id").getD Json.null,
             method := method,
             params := match getField fields "params" with
                       | none => strBytes "null"
                       | some p => p.bytes }
    | _, _ => none
  | _ => none

/-- Unmarshal one JSON value into a `[]jsonrpc.Request`: the value must be an
array and every element must decode. -/
def decodeRequestList (j : Json) : Option (List Request) :=
  match j with
  | Json.arr elems => elems.mapM decodeRequest
  | _ => none

/-! ## The ingress (`http/server.go`) -/

/-- `jsonrpc.RPCs`: the known-method table of the darknode `jsonrpc` package
(external to this repository; the spec lists its eight methods). -/
def RPCs : List String :=
  ["ren_queryBlock", "ren_queryBlocks", "ren_queryNumPeers", "ren_queryPeers",
   "ren_queryEpoch", "ren_queryStat", "ren_submitTx", "ren_queryTx"]

/-- `errResponse`: build an error response carrying the given id. -/
def errResponse (code : Int) (id : Json) (message : String) : Response :=
  { id := id, result := none, error := some { code := code, message := message } }

/-- `writeError`: the HTTP status code chosen for a single error response. -/
def errorStatusCode (code : Int) : Nat :=
  if code = ErrorCodeInvalidJSON ∨ code = ErrorCodeInvalidParams ∨ code = ErrorCodeInvalidRequest
  then 400
  else if code = ErrorCodeMethodNotFound ∨ code = ErrorCodeResultNotFound then 404
  else 500

/-- Outcome of the body-parsing prefix of `handleFunc`: either the accepted
batch, or a single error response written with the given HTTP status. -/
inductive ParseResult where
  | batch (reqs : List Request) : ParseResult
  | failure (resp : Response) (status : Nat) : ParseResult

/-- The body-parsing prefix of `handleFunc`.  The argument is `none` when the
body is not valid JSON at all (the initial `json.RawMessage` decode fails),
otherwise the decoded JSON value.  Mirrors: decode raw message, try
`[]jsonrpc.Request`, fall back to a single `jsonrpc.Request`, otherwise write
a single invalid-JSON error response (HTTP status from `writeError`). -/
def parseBody (body : Option Json) : ParseResult :=
  match body with
  | none =>
    ParseResult.failure
      (errResponse ErrorCodeInvalidJSON (Json.num 0) "lightnode could not decode JSON request")
      (errorStatusCode ErrorCodeInvalidJSON)
  | some j =>
    match decodeRequestList j with
    | some reqs => ParseResult.batch reqs
    | none =>
      match decodeRequest j with
      | some req => ParseResult.batch [req]
      | none =>
        ParseResult.failure
          (errResponse ErrorCodeInvalidJSON (Json.num 0) "lightnode could not parse JSON request")
          (errorStatusCode ErrorCodeInvalidJSON)

/-- Modelled from the spec: the rate limiter (`http.NewRateLimiter`, whose
source file is not under `src/`) is a set of per-`(method, host)` token
buckets; `Allow` returns true iff the bucket currently has a token and
decrements it; buckets are created lazily with `burst` tokens. -/
structure RateLimiter where
  burst : Nat
  buckets : List ((String × String) × Nat)

/-- Modelled from the spec: `RateLimiter.Allow(method, host)`. -/
def RateLimiter.allow (rl : RateLimiter) (method host : String) : Bool × RateLimiter :=
  match rl.buckets.find? fun p => decide (p.1 = (method, host)) with
  | some (_, tokens) =>
    if tokens = 0 then (false, rl)
    else (true, { rl with buckets := ((method, host), tokens - 1) ::
                    rl.buckets.filter fun p => decide (p.1 ≠ (method, host)) })
  | none =>
    if rl.burst = 0 then (false, rl)
    else (true, { rl with buckets := ((method, host), rl.burst - 1) :: rl.buckets })

/-- Replay a list of recorded `Allow` calls against a rate-limiter state. -/
def RateLimiter.applyCalls (rl : RateLimiter) (calls : List (String × String)) : RateLimiter :=
  calls.foldl (fun s c => (s.allow c.1 c.2).2) rl

/-- How the `select` at the end of a slot's task resolves: the batch timer
fires first, the responder channel delivers a response first, or the HTTP
request context is cancelled first. -/
inductive RaceOutcome where
  | timer : RaceOutcome
  | responded (resp : Response) : RaceOutcome
  | canceled : RaceOutcome

/-- The scheduling environment of one slot's task: what `Allow` returned,
whether `validator.Send` succeeded, and how the final `select` resolved.
These are the sources of nondeterminism in the concurrent Go code. -/
structure SlotEnv where
  allowed : Bool
  sendOk : Bool
  raced : RaceOutcome

/-- The body of the `phi.ParForAll` closure in `handleFunc` for one slot:
returns the response stored into `responses[i]` together with the list of
`rateLimiter.Allow` calls the slot performed.  Checks happen in source
order: known method, rate limit, send to validator, then the `select` race
between the batch timer, the responder channel and context cancellation. -/
def handleSlot (req : Request) (host : String) (env : SlotEnv) : Response × List (String × String) :=
  if req.method ∈ RPCs then
    if env.allowed then
      if env.sendOk then
        match env.raced with
        | RaceOutcome.timer => (errResponse ErrorCodeTimeout req.id "timeout for request", [(req.method, host)])
        | RaceOutcome.responded resp => (resp, [(req.method, host)])
        | RaceOutcome.canceled =>
          (errResponse ErrorCodeTimeout req.id "context canceled by the client for request", [(req.method, host)])
      else
        (errResponse ErrorCodeInternal req.id
          "fail to send request to validator, too much back pressure in server", [(req.method, host)])
    else
      (errResponse ErrorCodeRateLimitExceeded req.id "rate limit exceeded", [(req.method, host)])
  else
    (errResponse ErrorCodeMethodNotFound req.id "unsupported method", [])

/-- Default slot environment used to totalize list indexing. -/
def defaultEnv : SlotEnv :=
  { allowed := false, sendOk := false, raced := RaceOutcome.timer }

/-- Default request used to totalize list indexing. -/
def defaultRequest : Request :=
  { version := "", id := Json.null, method := "", params := [] }

/-- The response placed into slot `i` of the batch. -/
def slotResponse (reqs : List Request) (host : String) (envs : List SlotEnv) (i : Nat) : Response :=
  (handleSlot (reqs.getD i defaultRequest) host (envs.getD i defaultEnv)).1

/-- The `responses` array of `handleFunc` as a function of the batch: slot `i`
holds the response computed from request `i` and its own environment. -/
def handleBatch (reqs : List Request) (host : String) (envs : List SlotEnv) : List Response :=
  (List.range reqs.length).map (slotResponse reqs host envs)

/-- The `responses` array as actually filled by `phi.ParForAll`: the slots
are written in an arbitrary completion order `order` into an array of
`len(reqs)` zero responses. -/
def fillSlots (reqs : List Request) (host : String) (envs : List SlotEnv)
    (order : List Nat) : List Response :=
  order.foldl (fun acc i => acc.set i (slotResponse reqs host envs i))
    (List.replicate reqs.length Response.empty)

/-- `handleFunc` after the body has been read: parse (single or batch),
enforce the maximum batch size, then fill all slots concurrently.  Returns
the list of responses written back. -/
def handleFunc (body : Option Json) (host : String) (envs : List SlotEnv)
    (order : List Nat) (maxBatchSize : Nat) : List Response :=
  match parseBody body with
  | ParseResult.failure resp _ => [resp]
  | ParseResult.batch reqs =>
    if reqs.length > maxBatchSize then
      [errResponse ErrorCodeMaxBatchSizeExceeded (Json.num 0) "maximum batch size exceeded"]
    else
      fillSlots reqs host envs order

/-! ## The cacher (`cacher/cacher.go`) -/

/-- `cacher.ID`: a 32-byte key for a cached response. -/
def ID := List Nat

/-- The cacher's `hash` function (renamed here to avoid clashing with
`Hashable.hash`): `sha3.Sum256` of the given data. -/
def cacherHash (data : List Nat) : ID := sha3Sum256 data

/-- `ID.String()`: the bytes of the id viewed as a Go string.  Keys of the
TTL cache are byte strings; they are modelled directly as byte lists. -/
def ID.string (id : ID) : List Nat := id

/-- Method-name constants of the darknode `jsonrpc` package. -/
def MethodQueryBlock : String := "ren_queryBlock"
def MethodQueryBlocks : String := "ren_queryBlocks"
def MethodQueryNumPeers : String := "ren_queryNumPeers"
def MethodQueryPeers : String := "ren_queryPeers"
def MethodQueryEpoch : String := "ren_queryEpoch"
def MethodQueryStat : String := "ren_queryStat"
def MethodSubmitTx : String := "ren_submitTx"
def MethodQueryTx : String := "ren_queryTx"

/-- `isCachable`: the switch over the request method.  `none` models the
`panic` taken on any method outside the eight known ones. -/
def isCachable (method : String) : Option Bool :=
  if method = MethodQueryBlock ∨ method = MethodQueryBlocks ∨
     method = MethodQueryNumPeers ∨ method = MethodQueryPeers ∨
     method = MethodQueryEpoch ∨ method = MethodQueryStat then
    some true
  else if method = MethodSubmitTx ∨ method = MethodQueryTx then
    some false
  else
    none

/-- The state of the `kv` TTL cache (`kv.NewTTLCache`), an external library:
a key-value table from byte-string keys to responses.  TTL expiry removes an
entry, so an entry that is present is unexpired. -/
abbrev CacheState : Type := List (List Nat × Response)

/-- The empty cache. -/
def CacheState.empty : CacheState := []

/-- `Cacher.get`: look the key `reqID.String() + darknodeID` up in the TTL
cache, returning the zero response and `false` on a miss. -/
def Cacher.get (cache : CacheState) (reqID : ID) (darknodeID : String) : Response × Bool :=
  let id := reqID.string ++ strBytes darknodeID
  match cache.find? fun p => decide (p.1 = id) with
  | some (_, response) => (response, true)
  | none => (Response.empty, false)

/-- `Cacher.insert`: store the response under `reqID.String() + darknodeID`
(the `method` argument of the Go function is unused there). -/
def Cacher.insert (cache : CacheState) (reqID : ID) (darknodeID : String)
    (response : Response) (method : String) : CacheState :=
  let id := reqID.string ++ strBytes darknodeID
  (id, response) :: cache.filter fun p => decide (p.1 ≠ id)

/-- The cache key the cacher derives for an envelope: the SHA3-256 hash of
the request's params bytes followed by the method-name bytes, concatenated
with the darknode-hint bytes. -/
def cacheKey (req : Request) (darknodeID : String) : List Nat :=
  (cacherHash (req.params ++ strBytes req.method)).string ++ strBytes darknodeID

/-- The observable effect of one `Cacher.Handle` call: the cache state after
the envelope has been fully handled (including the goroutine that runs when
the dispatcher replies), the sends performed on the envelope's responder
channel, and the envelopes forwarded to the dispatcher. -/
structure CacherEffect where
  cache : CacheState
  sends : List Response
  dispatched : List RequestWithResponder

/-- `Cacher.Handle`.  `dispatcherResponse` is the response the dispatcher
delivers on the fresh internal responder channel when the envelope is
forwarded (unused on the cached branch).  Mirrors the source: marshal the
params, hash `params ++ method`, classify cacheability (`none` = panic on an
unknown method), look the key up, and either answer from the cache or
forward to the dispatcher — in which case the goroutine inserts the
dispatcher's response into the cache and forwards it to the original
responder. -/
def Cacher.handle (cache : CacheState) (msg : RequestWithResponder)
    (dispatcherResponse : Response) : Option CacherEffect :=
  let params := msg.request.params
  let data := params ++ strBytes msg.request.method
  let reqID := cacherHash data
  match isCachable msg.request.method with
  | none => none
  | some cachable =>
    let gotten := Cacher.get cache reqID msg.darknodeID
    if cachable && gotten.2 then
      some { cache := cache, sends := [gotten.1], dispatched := [] }
    else
      some { cache := Cacher.insert cache reqID msg.darknodeID dispatcherResponse msg.request.method,
             sends := [dispatcherResponse],
             dispatched := [NewRequestWithResponder msg.request msg.darknodeID] }

/-! ## The dispatcher (`dispatcher.go`) -/

/-- The dispatcher's state: its list of known darknode multi-addresses
(addresses themselves are opaque; only the list structure matters). -/
structure Dispatcher where
  addrs : List String

/-- `Dispatcher.multiAddrs`: returns the one-element list holding the first
known address.  `none` models the panic of `dispatcher.addrs[0]` when the
address list is empty. -/
def Dispatcher.multiAddrs (dispatcher : Dispatcher) (method : String) : Option (List String) :=
  match dispatcher.addrs with
  | [] => none
  | a :: _ => some [a]

/-- `FirstResponseIterator.update`: done on the first input, returning it. -/
def FirstResponseIterator.update (res : Response) (final : Bool) : Bool × Response :=
  (true, res)

/-- The response loop of `Dispatcher.Handle`: feed the back-end responses (in
arrival order) to the iterator with counter `i` starting at 1 and the final
flag set on response number `n`; on `done` send the aggregate on the
responder and return; if the channel closes without `done`, send the zero
response.  Returns the list of sends performed on the responder channel. -/
def dispatchLoop (update : Response → Bool → Bool × Response) (i n : Nat) :
    List Response → List Response
  | [] => [Response.empty]
  | res :: rest =>
    let step := update res (decide (i = n))
    if step.1 then [step.2] else dispatchLoop update (i + 1) n rest

/-- `Dispatcher.Handle` for an envelope, given the back-end responses in
arrival order: compute the target list (`none` = panic on an empty address
list), then run the response loop with the first-response iterator (the
iterator `responseIterator` selects for every method).  Returns the sends
performed on the envelope's responder channel. -/
def Dispatcher.handle (dispatcher : Dispatcher) (msg : RequestWithResponder)
    (arrivals : List Response) : Option (List Response) :=
  (dispatcher.multiAddrs msg.request.method).map fun addrs =>
    dispatchLoop FirstResponseIterator.update 1 addrs.length arrivals

/-! ## Concrete example values (used to exercise the definitions) -/

/-- A two-request batch body: `ren_queryBlock` then `ren_queryTx`. -/
def exampleBody : Json :=
  Json.arr
    [Json.obj [("jsonrpc", Json.str "2.0"), ("id", Json.num 1), ("method", Json.str "ren_queryBlock")],
     Json.obj [("jsonrpc", Json.str "2.0"), ("id", Json.num 2), ("method", Json.str "ren_queryTx")]]

/-- The decoded form of `exampleBody`. -/
def exampleReqs : List Request :=
  [{ version := "2.0", id := Json.num 1, method := "ren_queryBlock", params := strBytes "null" },
   { version := "2.0", id := Json.num 2, method := "ren_queryTx", params := strBytes "null" }]

/-- Slot environments for `exampleReqs`: the first request is allowed through
and times out; the second is rejected by the rate limiter. -/
def exampleEnvs : List SlotEnv :=
  [{ allowed := true, sendOk := true, raced := RaceOutcome.timer },
   { allowed := false, sendOk := true, raced := RaceOutcome.timer }]

/-- A single-request body. -/
def exampleSingleBody : Json :=
  Json.obj [("jsonrpc", Json.str "2.0"), ("id", Json.num 1), ("method", Json.str "ren_queryBlock")]

/-- A well-formed `ren_queryBlock` request. -/
def queryBlockRequest : Request :=
  { version := "2.0", id := Json.num 1, method := "ren_queryBlock", params := strBytes "null" }

/-- A well-formed `ren_submitTx` request. -/
def submitTxRequest : Request :=
  { version := "2.0", id := Json.num 2, method := "ren_submitTx", params := strBytes "null" }

/-- A successful back-end response. -/
def okResponse : Response :=
  { id := Json.num 1, result := some (Json.str "block"), error := none }

/-- A request whose method is outside the known-method table. -/
def unknownMethodRequest : Request :=
  { version := "2.0", id := Json.num 7, method := "eth_getBalance", params := [] }

/-- A second `ren_queryBlock` request with the same params and method as
`queryBlockRequest` but a different id. -/
def queryBlockRequestAlt : Request :=
  { version := "2.0", id := Json.num 99, method := "ren_queryBlock", params := strBytes "null" }

/-- A cache already holding the response for `queryBlockRequest` hinted at
node `"node1"`. -/
def hitCache : CacheState :=
  Cacher.insert CacheState.empty
    (cacherHash (queryBlockRequest.params ++ strBytes queryBlockRequest.method))
    "node1" okResponse queryBlockRequest.method

/-! ## Helper lemmas -/

/-- Filling slots of an array by index: after folding `set` over any order,
position `j` holds `f j` iff `j` was visited (and is in range), and is
untouched otherwise. -/
theorem foldl_set_getElem? {α : Type} (f : Nat → α) (order : List Nat) :
    ∀ (acc : List α) (j : Nat),
      (order.foldl (fun a i => a.set i (f i)) acc)[j]? =
        if j ∈ order ∧ j < acc.length then some (f j) else acc[j]? := by
  induction order with
  | nil => intro acc j; simp
  | cons i rest ih =>
    intro acc j
    simp only [List.foldl_cons]
    rw [ih, List.length_set]
    by_cases hjl : j < acc.length
    · by_cases hjr : j ∈ rest
      · simp [hjr, hjl]
      · have hset : (acc.set i (f i))[j]? = if i = j then some (f i) else acc[j]? := by
          rw [List.getElem?_set]
          by_cases hij : i = j
          · subst hij; simp [hjl]
          · simp [hij]
        by_cases hij : i = j
        · subst hij; simp [hjr, hjl, hset, List.mem_cons]
        · have hji : ¬ j = i := fun h => hij h.symm
          simp [hjr, hjl, hset, hij, hji, List.mem_cons]
    · have h1 : acc[j]? = none := List.getElem?_eq_none (by omega)
      have h2 : (acc.set i (f i))[j]? = none := by
        rw [List.getElem?_set]
        by_cases hij : i = j
        · subst hij; simp [hjl, h1]
        · simp [hij, h1]
      simp [hjl, h1, h2]

/-- As long as the completion order visits every index of the batch exactly
once (it is a permutation of `range n`), the concurrently filled response
array equals the in-order one. -/
theorem fillSlots_eq_handleBatch (reqs : List Request) (host : String) (envs : List SlotEnv)
    (order : List Nat) (h : order.Perm (List.range reqs.length)) :
    fillSlots reqs host envs order = handleBatch reqs host envs := by
  apply List.ext_getElem?
  intro j
  rw [fillSlots, foldl_set_getElem? (slotResponse reqs host envs) order]
  by_cases hj : j < reqs.length
  · have hmem : j ∈ order := by rw [h.mem_iff]; simpa using hj
    simp [hmem, hj, handleBatch, List.getElem?_map, List.getElem?_range]
  · have hnot : j ∉ order := fun hc => hj (by simpa using h.mem_iff.mp hc)
    have h1 : (List.replicate reqs.length Response.empty)[j]? = none :=
      List.getElem?_eq_none (by simpa using Nat.le_of_not_lt hj)
    have h2 : (handleBatch reqs host envs)[j]? = none :=
      List.getElem?_eq_none (by simp [handleBatch]; omega)
    simp [hnot, h1, h2]

/-- The length of the in-order response array is the batch size. -/
theorem handleBatch_length (reqs : List Request) (host : String) (envs : List SlotEnv) :
    (handleBatch reqs host envs).length = reqs.length := by
  simp [handleBatch]

/-- Indexing the in-order response array within range. -/
theorem handleBatch_getD (reqs : List Request) (host : String) (envs : List SlotEnv)
    (i : Nat) (h : i < reqs.length) :
    (handleBatch reqs host envs).getD i Response.empty = slotResponse reqs host envs i := by
  simp [handleBatch, List.getD, List.getElem?_map, List.getElem?_range, h]

/-- Every response `handleSlot` builds itself carries the request's id; the
only other possible slot value is the response delivered on the request's own
responder channel. -/
theorem handleSlot_id (req : Request) (host : String) (env : SlotEnv) :
    (handleSlot req host env).1.id = req.id ∨
      env.raced = RaceOutcome.responded (handleSlot req host env).1 := by
  unfold handleSlot
  by_cases hm : req.method ∈ RPCs
  · by_cases ha : env.allowed
    · by_cases hs : env.sendOk
      · cases hr : env.raced <;> simp [hm, ha, hs, hr, errResponse]
      · simp [hm, ha, hs, errResponse]
    · simp [hm, ha, errResponse]
  · simp [hm, errResponse]

/-! ## Claims -/

/-- C1: for every accepted batch (valid JSON, `N ≤ MaxBatchSize`) the
response array has length `N`; slot `i` is the response computed from request
`i` and its own environment, whatever completion order the concurrent slot
tasks finish in; and slot `i` is either the response delivered on request
`i`'s own responder channel or an error response carrying request `i`'s id. -/
theorem c1_batch_slots_aligned (body : Option Json) (host : String) (reqs : List Request)
    (envs : List SlotEnv) (order : List Nat) (maxBatchSize : Nat)
    (hparse : parseBody body = ParseResult.batch reqs)
    (hsize : reqs.length ≤ maxBatchSize)
    (hperm : order.Perm (List.range reqs.length)) :
    handleFunc body host envs order maxBatchSize = handleBatch reqs host envs ∧
    (handleFunc body host envs order maxBatchSize).length = reqs.length ∧
    (∀ i, i < reqs.length →
      (handleFunc body host envs order maxBatchSize).getD i Response.empty =
        (handleSlot (reqs.getD i defaultRequest) host (envs.getD i defaultEnv)).1) ∧
    (∀ i, i < reqs.length →
      ((handleFunc body host envs order maxBatchSize).getD i Response.empty).id =
          (reqs.getD i defaultRequest).id ∨
        (envs.getD i defaultEnv).raced =
          RaceOutcome.responded
            ((handleFunc body host envs order maxBatchSize).getD i Response.empty)) := by
  have hmain : handleFunc body host envs order maxBatchSize = handleBatch reqs host envs := by
    simp only [handleFunc, hparse]
    rw [if_neg (by omega)]
    exact fillSlots_eq_handleBatch reqs host envs order hperm
  refine ⟨hmain, ?_, ?_, ?_⟩
  · rw [hmain]; exact handleBatch_length reqs host envs
  · intro i hi
    rw [hmain, handleBatch_getD reqs host envs i hi]
    rfl
  · intro i hi
    rw [hmain, handleBatch_getD reqs host envs i hi]
    exact handleSlot_id (reqs.getD i defaultRequest) host (envs.getD i defaultEnv)

/-- Witness for C1: a concrete two-request batch, filled in reversed
completion order `[1, 0]`, still yields the in-order response array; slot 0
is request 0's timeout error carrying id 1. -/
theorem c1_batch_slots_aligned_witness :
    parseBody (some exampleBody) = ParseResult.batch exampleReqs ∧
    exampleReqs.length ≤ 10 ∧
    List.Perm [1, 0] (List.range exampleReqs.length) ∧
    handleFunc (some exampleBody) "203.0.113.7" exampleEnvs [1, 0] 10 =
      handleBatch exampleReqs "203.0.113.7" exampleEnvs ∧
    (handleFunc (some exampleBody) "203.0.113.7" exampleEnvs [1, 0] 10).length =
      exampleReqs.length ∧
    (handleFunc (some exampleBody) "203.0.113.7" exampleEnvs [1, 0] 10).getD 0 Response.empty =
      (handleSlot (exampleReqs.getD 0 defaultRequest) "203.0.113.7"
        (exampleEnvs.getD 0 defaultEnv)).1 ∧
    (((handleFunc (some exampleBody) "203.0.113.7" exampleEnvs [1, 0] 10).getD 0
          Response.empty).id = (exampleReqs.getD 0 defaultRequest).id ∨
      (exampleEnvs.getD 0 defaultEnv).raced =
        RaceOutcome.responded
          ((handleFunc (some exampleBody) "203.0.113.7" exampleEnvs [1, 0] 10).getD 0
            Response.empty)) := by
  have hparse : parseBody (some exampleBody) = ParseResult.batch exampleReqs := rfl
  have hsize : exampleReqs.length ≤ 10 := by simp [exampleReqs]
  have hperm : List.Perm [1, 0] (List.range exampleReqs.length) := by
    simp only [exampleReqs, List.length_cons, List.length_nil]
    exact List.Perm.swap 0 1 []
  have h := c1_batch_slots_aligned (some exampleBody) "203.0.113.7" exampleReqs
    exampleEnvs [1, 0] 10 hparse hsize hperm
  exact ⟨hparse, hsize, hperm, h.1, h.2.1, h.2.2.1 0 (by simp [exampleReqs]),
    h.2.2.2 0 (by simp [exampleReqs])⟩

/-- C6: a request whose method is not in the known-method table is answered
with a `-32601` (method not found) response carrying the request's id, the
slot performs no `RateLimiter.Allow` call, and any rate-limiter state is
left unchanged. -/
theorem c6_unknown_method_no_rate_limit (req : Request) (host : String) (env : SlotEnv)
    (h : req.method ∉ RPCs) :
    handleSlot req host env =
      (errResponse ErrorCodeMethodNotFound req.id "unsupported method", []) ∧
    ∀ rl : RateLimiter, rl.applyCalls (handleSlot req host env).2 = rl := by
  have hs : handleSlot req host env =
      (errResponse ErrorCodeMethodNotFound req.id "unsupported method", []) := by
    unfold handleSlot
    rw [if_neg h]
  exact ⟨hs, fun rl => by rw [hs]; rfl⟩

/-- Witness for C6 at the unknown method `eth_getBalance` and a concrete
rate-limiter state. -/
theorem c6_unknown_method_no_rate_limit_witness :
    unknownMethodRequest.method ∉ RPCs ∧
    handleSlot unknownMethodRequest "198.51.100.3" defaultEnv =
      (errResponse ErrorCodeMethodNotFound (Json.num 7) "unsupported method", []) ∧
    RateLimiter.applyCalls { burst := 5, buckets := [] }
        (handleSlot unknownMethodRequest "198.51.100.3" defaultEnv).2 =
      { burst := 5, buckets := [] } := by
  have h : unknownMethodRequest.method ∉ RPCs := by decide
  have hc := c6_unknown_method_no_rate_limit unknownMethodRequest "198.51.100.3" defaultEnv h
  exact ⟨h, hc.1, hc.2 { burst := 5, buckets := [] }⟩

/-- C7: the body-parsing prefix of `handleFunc`: a JSON value that decodes as
an array of requests is the batch; one that does not but decodes as a single
request becomes a one-element batch; if both decodings fail (or the body is
not JSON at all) the reply is a single invalid-JSON (`-32700`) error response
written with HTTP status 400. -/
theorem c7_body_parse_classification :
    (∀ j reqs, decodeRequestList j = some reqs → parseBody (some j) = ParseResult.batch reqs) ∧
    (∀ j req, decodeRequestList j = none → decodeRequest j = some req →
      parseBody (some j) = ParseResult.batch [req]) ∧
    (∀ j, decodeRequestList j = none → decodeRequest j = none →
      parseBody (some j) =
        ParseResult.failure
          (errResponse ErrorCodeInvalidJSON (Json.num 0) "lightnode could not parse JSON request")
          400) ∧
    parseBody none =
      ParseResult.failure
        (errResponse ErrorCodeInvalidJSON (Json.num 0) "lightnode could not decode JSON request")
        400 ∧
    errorStatusCode ErrorCodeInvalidJSON = 400 := by
  refine ⟨?_, ?_, ?_, rfl, rfl⟩
  · intro j reqs h
    simp [parseBody, h]
  · intro j req h1 h2
    simp [parseBody, h1, h2]
  · intro j h1 h2
    simp [parseBody, h1, h2]
    rfl

/-- Witness for C7: a number is neither a request array nor a request and is
rejected with `-32700`/400; `exampleBody` decodes as a batch; a lone request
object becomes a one-element batch. -/
theorem c7_body_parse_classification_witness :
    decodeRequestList (Json.num 3) = none ∧
    decodeRequest (Json.num 3) = none ∧
    parseBody (some (Json.num 3)) =
      ParseResult.failure
        (errResponse ErrorCodeInvalidJSON (Json.num 0) "lightnode could not parse JSON request")
        400 ∧
    decodeRequestList exampleBody = some exampleReqs ∧
    parseBody (some exampleBody) = ParseResult.batch exampleReqs ∧
    decodeRequestList exampleSingleBody = none ∧
    decodeRequest exampleSingleBody = some queryBlockRequest ∧
    parseBody (some exampleSingleBody) = ParseResult.batch [queryBlockRequest] :=
  ⟨rfl, rfl, c7_body_parse_classification.2.2.1 (Json.num 3) rfl rfl,
   rfl, c7_body_parse_classification.1 exampleBody exampleReqs rfl,
   rfl, rfl, c7_body_parse_classification.2.1 exampleSingleBody queryBlockRequest rfl rfl⟩

/-- C2 counterexample: running the dispatcher's response loop with an empty
target list (0 targets, so the response channel closes with no input), the
single reply is the zero-value response `Response{}`, which carries no error
at all — in particular no `-32003` error. -/
theorem c2_empty_targets_counterexample :
    dispatchLoop FirstResponseIterator.update 1 0 [] = [Response.empty] ∧
    Response.empty.error = none :=
  ⟨rfl, rfl⟩

/-- C2 amended: the target list `multiAddrs` computes is never empty — it is
the singleton first known address, and `Handle` panics (indexing
`dispatcher.addrs[0]`) when the dispatcher's address list is empty; had the
response loop run with an empty target list, the reply would have been the
zero-value response, which carries no error (not a `-32003` error
response). -/
theorem c2_empty_targets_amended (d : Dispatcher) (msg : RequestWithResponder)
    (arrivals : List Response) (method : String) :
    (d.addrs = [] → d.multiAddrs method = none ∧ Dispatcher.handle d msg arrivals = none) ∧
    (∀ a rest, d.addrs = a :: rest → d.multiAddrs method = some [a]) ∧
    dispatchLoop FirstResponseIterator.update 1 0 [] = [Response.empty] ∧
    Response.empty.error = none := by
  refine ⟨?_, ?_, rfl, rfl⟩
  · intro h
    exact ⟨by simp [Dispatcher.multiAddrs, h],
           by simp [Dispatcher.handle, Dispatcher.multiAddrs, h]⟩
  · intro a rest h
    simp [Dispatcher.multiAddrs, h]

/-- Witness for C2's amended claim at concrete dispatcher states. -/
theorem c2_empty_targets_amended_witness :
    Dispatcher.multiAddrs { addrs := [] } "ren_queryBlock" = none ∧
    Dispatcher.handle { addrs := [] } (NewRequestWithResponder queryBlockRequest "") [] = none ∧
    Dispatcher.multiAddrs { addrs := ["/ip4/203.0.113.9"] } "ren_queryBlock" =
      some ["/ip4/203.0.113.9"] := by
  have h1 := (c2_empty_targets_amended { addrs := [] }
    (NewRequestWithResponder queryBlockRequest "") [] "ren_queryBlock").1 rfl
  have h2 := (c2_empty_targets_amended { addrs := ["/ip4/203.0.113.9"] }
    (NewRequestWithResponder queryBlockRequest "") [] "ren_queryBlock").2.1
    "/ip4/203.0.113.9" [] rfl
  exact ⟨h1.1, h1.2, h2⟩

/-- C3 counterexample: handling a `ren_submitTx` envelope against the empty
cache inserts the dispatcher's response into the cache — afterwards the
cache holds one entry, so the cache's entry set is not unchanged. -/
theorem c3_submit_tx_inserted_counterexample :
    List.length CacheState.empty = 0 ∧
    ((Cacher.handle CacheState.empty (NewRequestWithResponder submitTxRequest "node1")
        okResponse).map fun eff => eff.cache.length) = some 1 :=
  ⟨rfl, rfl⟩

/-- C3 amended: for `ren_submitTx` / `ren_queryTx` envelopes the cacher never
serves the reply from the cache — it always forwards the request to the
dispatcher and replies with the dispatcher's response — but it does insert
the dispatcher's response into the response cache (the miss-path goroutine
calls `insert` unconditionally). -/
theorem c3_non_cacheable_forwarded_but_inserted (cache : CacheState)
    (msg : RequestWithResponder) (resp : Response)
    (h : isCachable msg.request.method = some false) :
    Cacher.handle cache msg resp =
      some { cache := Cacher.insert cache
               (cacherHash (msg.request.params ++ strBytes msg.request.method))
               msg.darknodeID resp msg.request.method,
             sends := [resp],
             dispatched := [NewRequestWithResponder msg.request msg.darknodeID] } := by
  simp [Cacher.handle, h]

/-- Witness for C3's amended claim: a concrete `ren_submitTx` envelope is
forwarded to the dispatcher and its response inserted into the cache. -/
theorem c3_non_cacheable_forwarded_but_inserted_witness :
    isCachable submitTxRequest.method = some false ∧
    Cacher.handle CacheState.empty (NewRequestWithResponder submitTxRequest "node1") okResponse =
      some { cache := Cacher.insert CacheState.empty
               (cacherHash (submitTxRequest.params ++ strBytes submitTxRequest.method))
               "node1" okResponse submitTxRequest.method,
             sends := [okResponse],
             dispatched := [NewRequestWithResponder submitTxRequest "node1"] } := by
  have h : isCachable submitTxRequest.method = some false := rfl
  exact ⟨h, c3_non_cacheable_forwarded_but_inserted CacheState.empty
    (NewRequestWithResponder submitTxRequest "node1") okResponse h⟩

/-- C4: if the envelope's method is cacheable and the cache holds an entry
under the request's key, the cacher replies on the envelope's responder with
the cached response, forwards nothing to the dispatcher (no back-end is
contacted), and leaves the cache unchanged. -/
theorem c4_cache_hit_short_circuits (cache : CacheState) (msg : RequestWithResponder)
    (dresp resp : Response)
    (hc : isCachable msg.request.method = some true)
    (hhit : Cacher.get cache (cacherHash (msg.request.params ++ strBytes msg.request.method))
        msg.darknodeID = (resp, true)) :
    Cacher.handle cache msg dresp = some { cache := cache, sends := [resp], dispatched := [] } := by
  simp [Cacher.handle, hc, hhit]

/-- Witness for C4: a concrete `ren_queryBlock` envelope hitting a cache that
already holds its response. -/
theorem c4_cache_hit_short_circuits_witness :
    isCachable queryBlockRequest.method = some true ∧
    Cacher.get hitCache
        (cacherHash (queryBlockRequest.params ++ strBytes queryBlockRequest.method)) "node1" =
      (okResponse, true) ∧
    Cacher.handle hitCache (NewRequestWithResponder queryBlockRequest "node1") Response.empty =
      some { cache := hitCache, sends := [okResponse], dispatched := [] } := by
  have hc : isCachable queryBlockRequest.method = some true := rfl
  have hhit : Cacher.get hitCache
      (cacherHash (queryBlockRequest.params ++ strBytes queryBlockRequest.method)) "node1" =
      (okResponse, true) := by
    simp [hitCache, Cacher.get, Cacher.insert, ID.string]
  exact ⟨hc, hhit, c4_cache_hit_short_circuits hitCache
    (NewRequestWithResponder queryBlockRequest "node1") Response.empty okResponse hc hhit⟩

/-- The dispatcher's response loop performs exactly one send on the responder
channel, whatever the iterator and the arrivals. -/
theorem dispatchLoop_length (update : Response → Bool → Bool × Response) :
    ∀ (i n : Nat) (arrivals : List Response), (dispatchLoop update i n arrivals).length = 1 := by
  intro i n arrivals
  induction arrivals generalizing i with
  | nil => rfl
  | cons res rest ih =>
    simp only [dispatchLoop]
    split
    · rfl
    · exact ih (i + 1)

/-- C5: the envelope's reply channel is created with capacity 1 and each
terminating stage performs exactly one send on the reply channel it
terminates: the cacher sends exactly once on the envelope's responder
(cached branch directly, miss branch from the goroutine that forwards the
dispatcher's reply; on the panic path the envelope is not handled at all),
and the dispatcher's response loop sends exactly once on its envelope's
responder (the in-loop send returns immediately, otherwise the single
fall-through send happens). -/
theorem c5_reply_channel_written_once (req : Request) (addr : String) :
    (NewRequestWithResponder req addr).responder.capacity = 1 ∧
    (∀ (cache : CacheState) (msg : RequestWithResponder) (dresp : Response) (eff : CacherEffect),
      Cacher.handle cache msg dresp = some eff → eff.sends.length = 1) ∧
    (∀ (update : Response → Bool → Bool × Response) (i n : Nat) (arrivals : List Response),
      (dispatchLoop update i n arrivals).length = 1) ∧
    (∀ (d : Dispatcher) (msg : RequestWithResponder) (arrivals : List Response)
        (sends : List Response),
      Dispatcher.handle d msg arrivals = some sends → sends.length = 1) := by
  refine ⟨rfl, ?_, dispatchLoop_length, ?_⟩
  · intro cache msg dresp eff h
    cases hic : isCachable msg.request.method
    · simp [Cacher.handle, hic] at h
    · simp only [Cacher.handle, hic] at h
      split at h <;> (injection h with h; subst h; rfl)
  · intro d msg arrivals sends h
    cases hm : d.multiAddrs msg.request.method <;>
      rw [Dispatcher.handle, hm] at h
    · cases h
    · injection h with h
      subst h
      exact dispatchLoop_length FirstResponseIterator.update 1 _ arrivals

/-- Witness for C5 at concrete inputs: the freshly built envelope's channel
has capacity 1; a concrete cacher call and a concrete dispatcher call each
perform exactly one send. -/
theorem c5_reply_channel_written_once_witness :
    (NewRequestWithResponder queryBlockRequest "node1").responder.capacity = 1 ∧
    ((Cacher.handle CacheState.empty (NewRequestWithResponder queryBlockRequest "node1")
        okResponse).map fun eff => eff.sends.length) = some 1 ∧
    (dispatchLoop FirstResponseIterator.update 1 1 [okResponse]).length = 1 ∧
    ((Dispatcher.handle { addrs := ["/ip4/203.0.113.9"] }
        (NewRequestWithResponder queryBlockRequest "node1") [okResponse]).map
      List.length) = some 1 := by
  refine ⟨(c5_reply_channel_written_once queryBlockRequest "node1").1, rfl,
    (c5_reply_channel_written_once queryBlockRequest "node1").2.2.1
      FirstResponseIterator.update 1 1 [okResponse], rfl⟩

/-- C8: the cache key is the 32-byte SHA3-256 digest of the request's params
bytes followed by the method-name bytes, concatenated with the target-node
hint, and it is computed deterministically: two requests with byte-identical
params, the same method and the same hint yield the same key, so the
cacher's `get` and `insert` address the same entry — in particular, a `get`
keyed by the second request finds what an `insert` keyed by the first
stored. -/
theorem c8_cache_key_deterministic (r1 r2 : Request) (hint : String)
    (hp : r1.params = r2.params) (hm : r1.method = r2.method) :
    cacheKey r1 hint = sha3Sum256 (r1.params ++ strBytes r1.method) ++ strBytes hint ∧
    cacheKey r1 hint = cacheKey r2 hint ∧
    (cacherHash (r1.params ++ strBytes r1.method)).string.length = 32 ∧
    (∀ cache : CacheState,
      Cacher.get cache (cacherHash (r1.params ++ strBytes r1.method)) hint =
        Cacher.get cache (cacherHash (r2.params ++ strBytes r2.method)) hint) ∧
    (∀ (cache : CacheState) (resp : Response) (m : String),
      Cacher.get
          (Cacher.insert cache (cacherHash (r1.params ++ strBytes r1.method)) hint resp m)
          (cacherHash (r2.params ++ strBytes r2.method)) hint =
        (resp, true)) := by
  have hkey : cacherHash (r2.params ++ strBytes r2.method) =
      cacherHash (r1.params ++ strBytes r1.method) := by rw [hp, hm]
  refine ⟨rfl, by simp [cacheKey, hp, hm], ?_, fun cache => by rw [hkey], ?_⟩
  · simp [cacherHash, sha3Sum256, ID.string]
  · intro cache resp m
    rw [hkey]
    simp [Cacher.get, Cacher.insert, ID.string]

/-- Witness for C8: two concrete `ren_queryBlock` requests with identical
params and method but different ids share the cache key, and a `get` keyed
by one finds what an `insert` keyed by the other stored. -/
theorem c8_cache_key_deterministic_witness :
    queryBlockRequest.params = queryBlockRequestAlt.params ∧
    queryBlockRequest.method = queryBlockRequestAlt.method ∧
    cacheKey queryBlockRequest "node1" = cacheKey queryBlockRequestAlt "node1" ∧
    (cacherHash (queryBlockRequest.params ++ strBytes queryBlockRequest.method)).string.length
      = 32 ∧
    Cacher.get
        (Cacher.insert CacheState.empty
          (cacherHash (queryBlockRequest.params ++ strBytes queryBlockRequest.method))
          "node1" okResponse queryBlockRequest.method)
        (cacherHash (queryBlockRequestAlt.params ++ strBytes queryBlockRequestAlt.method))
        "node1" =
      (okResponse, true) := by
  have h := c8_cache_key_deterministic queryBlockRequest queryBlockRequestAlt "node1" rfl rfl
  exact ⟨rfl, rfl, h.2.1, h.2.2.1,
    h.2.2.2.2 CacheState.empty okResponse queryBlockRequest.method⟩

/-- C9: the first-response iterator's `update` returns `done = true` on its
first input and that input unchanged as the aggregate, for every response
value and every value of the final flag; hence the dispatcher's response
loop (and `Handle` with any non-empty address list) replies with the first
back-end response to arrive. -/
theorem c9_first_response_iterator (res : Response) (final : Bool) (n : Nat)
    (rest : List Response) (a : String) (t : List String) (msg : RequestWithResponder) :
    FirstResponseIterator.update res final = (true, res) ∧
    dispatchLoop FirstResponseIterator.update 1 n (res :: rest) = [res] ∧
    Dispatcher.handle { addrs := a :: t } msg (res :: rest) = some [res] := by
  refine ⟨rfl, ?_, ?_⟩
  · simp [dispatchLoop, FirstResponseIterator.update]
  · simp [Dispatcher.handle, Dispatcher.multiAddrs, dispatchLoop, FirstResponseIterator.update]

/-- C10: `isCachable` is defined exactly on the eight known methods (it is
`some` iff the method is in the known-method table) and panics on any other
method; hence `Cacher.Handle` panics exactly on envelopes with an unknown
method, and under the precondition that only validator-admitted (known)
methods reach the cacher the panic branch is unreachable. -/
theorem c10_cacher_panics_iff_unknown_method :
    (∀ m : String, (isCachable m).isSome ↔ m ∈ RPCs) ∧
    (∀ (cache : CacheState) (msg : RequestWithResponder) (dresp : Response),
      msg.request.method ∈ RPCs → (Cacher.handle cache msg dresp).isSome) ∧
    (∀ (cache : CacheState) (msg : RequestWithResponder) (dresp : Response),
      msg.request.method ∉ RPCs → Cacher.handle cache msg dresp = none) := by
  have hiff : ∀ m : String, (isCachable m).isSome ↔ m ∈ RPCs := by
    intro m
    simp only [isCachable, RPCs, MethodQueryBlock, MethodQueryBlocks, MethodQueryNumPeers,
      MethodQueryPeers, MethodQueryEpoch, MethodQueryStat, MethodSubmitTx, MethodQueryTx,
      List.mem_cons, List.not_mem_nil, or_false]
    split_ifs with h1 h2 <;> simp <;> tauto
  refine ⟨hiff, ?_, ?_⟩
  · intro cache msg dresp h
    have hs := (hiff msg.request.method).mpr h
    obtain ⟨c, hc⟩ := Option.isSome_iff_exists.mp hs
    simp only [Cacher.handle, hc]
    split <;> rfl
  · intro cache msg dresp h
    have h0 : isCachable msg.request.method = none := by
      cases hic : isCachable msg.request.method
      · rfl
      · exact absurd ((hiff msg.request.method).mp (by rw [hic]; rfl)) h
    simp [Cacher.handle, h0]

/-- Witness for C10 at concrete methods: a known method is classified and
handled without panic; the unknown method `eth_getBalance` makes the cacher
panic. -/
theorem c10_cacher_panics_iff_unknown_method_witness :
    ((isCachable "ren_queryEpoch").isSome ↔ ("ren_queryEpoch" : String) ∈ RPCs) ∧
    queryBlockRequest.method ∈ RPCs ∧
    (Cacher.handle CacheState.empty (NewRequestWithResponder queryBlockRequest "node1")
      okResponse).isSome ∧
    unknownMethodRequest.method ∉ RPCs ∧
    Cacher.handle CacheState.empty (NewRequestWithResponder unknownMethodRequest "node1")
      okResponse = none := by
  refine ⟨c10_cacher_panics_iff_unknown_method.1 "ren_queryEpoch", by decide, ?_, by decide, ?_⟩
  · exact c10_cacher_panics_iff_unknown_method.2.1 CacheState.empty
      (NewRequestWithResponder queryBlockRequest "node1") okResponse (by decide)
  · exact c10_cacher_panics_iff_unknown_method.2.2 CacheState.empty
      (NewRequestWithResponder unknownMethodRequest "node1") okResponse (by decide)
